import Mathlib

/-!
Verification of the Auto-Sign signing workspace: the coordinate mapper
(`embedSignature` in the pdf service), the placement controller
(`handleGlobalMove`, `startResize` and the initialization effect in
`SigningWorkspace`), the page-navigation buttons, the commit pipeline
(`handleFinish`), and the signature capture surface (`SignaturePad`).

Numbers are modelled as rationals (the source uses JS doubles; all the
properties below are exact-arithmetic facts about the formulas the code
computes).
-/

namespace AutoSign

/-- `Dimensions` from `types.ts`: a width/height pair. -/
structure Dimensions where
  width : ℚ
  height : ℚ
  deriving DecidableEq, Repr

/-- `Position` from `types.ts`: a point in canvas space, origin top-left. -/
structure Position where
  x : ℚ
  y : ℚ
  deriving DecidableEq, Repr

/-- A rectangle in PDF point space (origin bottom-left), as passed to
`page.drawImage` in `embedSignature`. -/
structure Rect where
  x : ℚ
  y : ℚ
  width : ℚ
  height : ℚ
  deriving DecidableEq, Repr

/-- The overlay state owned by `SigningWorkspace`: `sigPosition` and
`sigDimensions`. -/
structure OverlayState where
  pos : Position
  dims : Dimensions
  deriving DecidableEq, Repr

/-! ## Coordinate mapper

The mapping step of `embedSignature` (`src/services/pdfService.ts`):

    const scaleX = actualWidth / pdfPageDimensions.width;
    const scaleY = actualHeight / pdfPageDimensions.height;
    const sigWidth = signatureDimensions.width * scaleX;
    const sigHeight = signatureDimensions.height * scaleY;
    const pdfX = position.x * scaleX;
    const pdfY = actualHeight - ((position.y * scaleY) + sigHeight);
-/

/-- The pure coordinate conversion performed inside `embedSignature`:
overlay position/size in rendered-canvas pixels to a PDF point-space
rectangle, given the rendered page dimensions and the page's native
(`page.getSize()`) dimensions. -/
def toDocumentSpace (position : Position) (signatureDimensions : Dimensions)
    (pdfPageDimensions : Dimensions) (native : Dimensions) : Rect :=
  let scaleX := native.width / pdfPageDimensions.width
  let scaleY := native.height / pdfPageDimensions.height
  let sigWidth := signatureDimensions.width * scaleX
  let sigHeight := signatureDimensions.height * scaleY
  let pdfX := position.x * scaleX
  let pdfY := native.height - (position.y * scaleY + sigHeight)
  ⟨pdfX, pdfY, sigWidth, sigHeight⟩

/-- C1: the commit conversion computes `scaleX = nativeWidth / renderedWidth`,
`scaleY = nativeHeight / renderedHeight`, and returns the rectangle with
`width = overlay.width * scaleX`, `height = overlay.height * scaleY`,
`x = overlay.x * scaleX`, and
`y = nativeHeight - (overlay.y * scaleY + overlay.height * scaleY)`
for every overlay state, rendered page, and native page size with positive
dimensions. -/
theorem toDocumentSpace_formula (p : Position) (d r n : Dimensions)
    (hdw : 0 < d.width) (hdh : 0 < d.height)
    (hrw : 0 < r.width) (hrh : 0 < r.height)
    (hnw : 0 < n.width) (hnh : 0 < n.height) :
    (toDocumentSpace p d r n).width = d.width * (n.width / r.width) ∧
    (toDocumentSpace p d r n).height = d.height * (n.height / r.height) ∧
    (toDocumentSpace p d r n).x = p.x * (n.width / r.width) ∧
    (toDocumentSpace p d r n).y =
      n.height - (p.y * (n.height / r.height) + d.height * (n.height / r.height)) :=
  ⟨rfl, rfl, rfl, rfl⟩

/-- C1 witness: the formula evaluated on the spec's US-Letter scenario
(viewport 800×1000, native 612×792, overlay at (350, 300) sized 100×50). -/
theorem toDocumentSpace_formula_witness :
    (toDocumentSpace ⟨350, 300⟩ ⟨100, 50⟩ ⟨800, 1000⟩ ⟨612, 792⟩).width
        = 100 * (612 / 800) ∧
    (toDocumentSpace ⟨350, 300⟩ ⟨100, 50⟩ ⟨800, 1000⟩ ⟨612, 792⟩).height
        = 50 * (792 / 1000) ∧
    (toDocumentSpace ⟨350, 300⟩ ⟨100, 50⟩ ⟨800, 1000⟩ ⟨612, 792⟩).x
        = 350 * (612 / 800) ∧
    (toDocumentSpace ⟨350, 300⟩ ⟨100, 50⟩ ⟨800, 1000⟩ ⟨612, 792⟩).y
        = 792 - (300 * (792 / 1000) + 50 * (792 / 1000)) :=
  toDocumentSpace_formula ⟨350, 300⟩ ⟨100, 50⟩ ⟨800, 1000⟩ ⟨612, 792⟩
    (by norm_num) (by norm_num) (by norm_num) (by norm_num) (by norm_num) (by norm_num)

/-! ## Placement controller

`handleGlobalMove` in `SigningWorkspace.tsx`.  The drag branch only sets
`sigPosition`; the resize branch only sets `sigDimensions` (and only when the
vertical-bounds check passes).  `relX`/`relY` below stand for
`e.clientX - canvasRect.left - dragOffset.x` and
`e.clientY - canvasRect.top - dragOffset.y`; `deltaX` for
`e.clientX - resizeStart.x`; `vw`/`vh` for `canvasRect.width/height`;
`initDims` for `initialResizeDims` (captured from the live `sigDimensions`
by `startResize`). -/

/-- The drag branch of `handleGlobalMove`: clamp the candidate position to
`[0, canvasRect.width - sigDimensions.width] × [0, canvasRect.height -
sigDimensions.height]` and set `sigPosition`. -/
def dragMove (st : OverlayState) (relX relY vw vh : ℚ) : OverlayState :=
  let maxX := vw - st.dims.width
  let maxY := vh - st.dims.height
  { st with pos := ⟨min (max 0 relX) maxX, min (max 0 relY) maxY⟩ }

/-- `newWidth` of the resize branch:
`Math.max(30, Math.min(initialResizeDims.width + deltaX, canvasRect.width -
sigPosition.x))`. -/
def resizeNewWidth (x w0 deltaX vw : ℚ) : ℚ :=
  max 30 (min (w0 + deltaX) (vw - x))

/-- `newHeight` of the resize branch: `newWidth / aspectRatio` where
`aspectRatio = initialResizeDims.width / initialResizeDims.height`. -/
def resizeNewHeight (x : ℚ) (initDims : Dimensions) (deltaX vw : ℚ) : ℚ :=
  resizeNewWidth x initDims.width deltaX vw / (initDims.width / initDims.height)

/-- The resize branch of `handleGlobalMove`: compute the aspect-constrained new
size and apply it only when `sigPosition.y + newHeight <= canvasRect.height`;
`sigPosition` is never written. -/
def resizeMove (st : OverlayState) (initDims : Dimensions) (deltaX vw vh : ℚ) :
    OverlayState :=
  if st.pos.y + resizeNewHeight st.pos.x initDims deltaX vw ≤ vh then
    { st with dims := ⟨resizeNewWidth st.pos.x initDims.width deltaX vw,
                       resizeNewHeight st.pos.x initDims deltaX vw⟩ }
  else st

/-- The overlay bounding-box invariant of §4.3 / §8: inside the viewport, at
least 30 wide, positive height. -/
def OverlayInv (vw vh : ℚ) (st : OverlayState) : Prop :=
  0 ≤ st.pos.x ∧ 0 ≤ st.pos.y ∧
  st.pos.x + st.dims.width ≤ vw ∧ st.pos.y + st.dims.height ≤ vh ∧
  30 ≤ st.dims.width ∧ 0 < st.dims.height

instance (vw vh : ℚ) (st : OverlayState) : Decidable (OverlayInv vw vh st) := by
  unfold OverlayInv; infer_instance

/-- C2: starting from an overlay satisfying the bounding-box invariant, a
completed drag update or resize update (with the resize's captured
`initialResizeDims` also coming from an invariant-satisfying overlay at the
same position, as `startResize` guarantees) again satisfies
`0 ≤ x`, `0 ≤ y`, `x + width ≤ vw`, `y + height ≤ vh`, `width ≥ 30`; a resize
that would break the vertical bound is dropped (the `else` branch of
`resizeMove`), not applied. -/
theorem overlay_update_invariant (vw vh relX relY deltaX : ℚ)
    (st : OverlayState) (initDims : Dimensions)
    (hcur : OverlayInv vw vh st)
    (hcap : OverlayInv vw vh ⟨st.pos, initDims⟩) :
    OverlayInv vw vh (dragMove st relX relY vw vh) ∧
    OverlayInv vw vh (resizeMove st initDims deltaX vw vh) := by
  obtain ⟨hx, hy, hxw, hyh, hw, hh⟩ := hcur
  obtain ⟨-, -, hxw0, -, hw0, hh0⟩ := hcap
  constructor
  · refine ⟨?_, ?_, ?_, ?_, hw, hh⟩
    · exact le_min (le_max_left 0 relX) (by linarith)
    · exact le_min (le_max_left 0 relY) (by linarith)
    · have : min (max 0 relX) (vw - st.dims.width) ≤ vw - st.dims.width :=
        min_le_right _ _
      simpa [dragMove] using by linarith
    · have : min (max 0 relY) (vh - st.dims.height) ≤ vh - st.dims.height :=
        min_le_right _ _
      simpa [dragMove] using by linarith
  · unfold resizeMove
    split
    case isTrue hguard =>
      have hwide : 30 ≤ resizeNewWidth st.pos.x initDims.width deltaX vw :=
        le_max_left _ _
      have hxcap : 30 ≤ vw - st.pos.x := by linarith
      have hbound : resizeNewWidth st.pos.x initDims.width deltaX vw ≤
          vw - st.pos.x := by
        unfold resizeNewWidth
        exact max_le hxcap (min_le_right _ _)
      have haspect : 0 < initDims.width / initDims.height :=
        div_pos (by linarith) hh0
      have hhpos : 0 < resizeNewHeight st.pos.x initDims deltaX vw := by
        unfold resizeNewHeight
        exact div_pos (by linarith) haspect
      exact ⟨hx, hy, by simpa using by linarith, by simpa using hguard, hwide, hhpos⟩
    case isFalse =>
      exact ⟨hx, hy, hxw, hyh, hw, hh⟩

/-- C2 witness: a drag towards (-50, 2000) and a 500-pixel-wide resize pull on
an 800×1000 viewport, from overlay (100, 100) sized 200×100, both land back
inside the invariant. -/
theorem overlay_update_invariant_witness :
    OverlayInv 800 1000 (dragMove ⟨⟨100, 100⟩, ⟨200, 100⟩⟩ (-50) 2000 800 1000) ∧
    OverlayInv 800 1000 (resizeMove ⟨⟨100, 100⟩, ⟨200, 100⟩⟩ ⟨200, 100⟩ 500 800 1000) :=
  overlay_update_invariant 800 1000 (-50) 2000 500 ⟨⟨100, 100⟩, ⟨200, 100⟩⟩ ⟨200, 100⟩
    (by norm_num [OverlayInv]) (by norm_num [OverlayInv])

/-- C5: a resize update never writes `sigPosition`, and when
`sigPosition.y + newHeight > canvasRect.height` the whole update is a no-op:
the state (size and position) is exactly what it was before. -/
theorem resize_position_frozen (st : OverlayState) (initDims : Dimensions)
    (deltaX vw vh : ℚ) :
    (resizeMove st initDims deltaX vw vh).pos = st.pos ∧
    (vh < st.pos.y + resizeNewHeight st.pos.x initDims deltaX vw →
      resizeMove st initDims deltaX vw vh = st) := by
  constructor
  · unfold resizeMove
    split <;> rfl
  · intro hover
    unfold resizeMove
    rw [if_neg (not_le.mpr hover)]

/-- C5 witness: pulling the resize handle 700 pixels to the right with the
overlay at (100, 900) on an 800×1000 viewport would need height 300, which
overflows the bottom edge, so the state is returned untouched. -/
theorem resize_position_frozen_witness :
    resizeMove ⟨⟨100, 900⟩, ⟨200, 100⟩⟩ ⟨200, 100⟩ 700 800 1000 =
      ⟨⟨100, 900⟩, ⟨200, 100⟩⟩ :=
  (resize_position_frozen ⟨⟨100, 900⟩, ⟨200, 100⟩⟩ ⟨200, 100⟩ 700 800 1000).2
    (by norm_num [resizeNewHeight, resizeNewWidth])

/-! ## Aspect ratio across resize sessions

`startResize` captures `initialResizeDims = {...sigDimensions}` from the live
overlay; the resize branch then computes
`aspectRatio = initialResizeDims.width / initialResizeDims.height`.  The
captured signature image enters only through the dimension-setting effect
(`img.onload`), which installs `width = 100`, `height = 100 / aspectRatio`
from the image's intrinsic size. -/

/-- The captured signature image's intrinsic size (`img.width`/`img.height`
after loading `signatureData.dataUrl`). -/
structure SignatureAsset where
  width : ℚ
  height : ℚ
  deriving DecidableEq, Repr

/-- `aspectRatio = img.width / img.height` from the dimension-setting effect in
`SigningWorkspace`. -/
def assetAspect (a : SignatureAsset) : ℚ := a.width / a.height

/-- The overlay dimensions installed by the `img.onload` effect:
`baseWidth = 100`, `height = baseWidth / aspectRatio`. -/
def dimsFromAsset (a : SignatureAsset) : Dimensions :=
  ⟨100, 100 / assetAspect a⟩

/-- One resize interaction: `startResize` captures the live `sigDimensions` as
`initialResizeDims`, then every global mouse move of the session resizes
against that same captured value. -/
def resizeSession (st : OverlayState) (deltas : List ℚ) (vw vh : ℚ) :
    OverlayState :=
  deltas.foldl (fun s d => resizeMove s st.dims d vw vh) st

/-- A sequence of resize interactions, each recapturing `initialResizeDims`
from the overlay dimensions current at its start. -/
def resizeRun (st : OverlayState) (sessions : List (List ℚ)) (vw vh : ℚ) :
    OverlayState :=
  sessions.foldl (fun s ds => resizeSession s ds vw vh) st

/-- Positive dimensions with width/height ratio `r`. -/
def RatioInv (r : ℚ) (st : OverlayState) : Prop :=
  0 < st.dims.width ∧ 0 < st.dims.height ∧ st.dims.width / st.dims.height = r

theorem resizeMove_ratio {r : ℚ} {i : Dimensions} (hiw : 0 < i.width)
    (hih : 0 < i.height) (hir : i.width / i.height = r)
    {st : OverlayState} (hst : RatioInv r st) (d vw vh : ℚ) :
    RatioInv r (resizeMove st i d vw vh) := by
  have hr : 0 < r := hir ▸ div_pos hiw hih
  unfold resizeMove
  split
  case isTrue =>
    have hw : 0 < resizeNewWidth st.pos.x i.width d vw :=
      lt_of_lt_of_le (by norm_num) (le_max_left _ _)
    refine ⟨hw, ?_, ?_⟩
    · show 0 < resizeNewHeight st.pos.x i d vw
      unfold resizeNewHeight
      rw [hir]
      exact div_pos hw hr
    · show resizeNewWidth st.pos.x i.width d vw / resizeNewHeight st.pos.x i d vw = r
      unfold resizeNewHeight
      rw [hir, div_div_eq_mul_div, mul_comm, mul_div_assoc, div_self hw.ne', mul_one]
  case isFalse => exact hst

theorem foldl_resizeMove_ratio {r : ℚ} {i : Dimensions} (hiw : 0 < i.width)
    (hih : 0 < i.height) (hir : i.width / i.height = r) (vw vh : ℚ) :
    ∀ (deltas : List ℚ) (s : OverlayState), RatioInv r s →
      RatioInv r (deltas.foldl (fun s d => resizeMove s i d vw vh) s)
  | [], _, hs => hs
  | d :: ds, s, hs =>
    foldl_resizeMove_ratio hiw hih hir vw vh ds _
      (resizeMove_ratio hiw hih hir hs d vw vh)

theorem resizeSession_ratio {r : ℚ} {st : OverlayState} (hst : RatioInv r st)
    (deltas : List ℚ) (vw vh : ℚ) :
    RatioInv r (resizeSession st deltas vw vh) :=
  foldl_resizeMove_ratio hst.1 hst.2.1 hst.2.2 vw vh deltas st hst

theorem resizeRun_ratio {r : ℚ} (vw vh : ℚ) :
    ∀ (sessions : List (List ℚ)) (st : OverlayState), RatioInv r st →
      RatioInv r (resizeRun st sessions vw vh)
  | [], _, hst => hst
  | ds :: rest, st, hst =>
    resizeRun_ratio vw vh rest _ (resizeSession_ratio hst ds vw vh)

/-- C4 counterexample: the aspect ratio used by a resize update is
`initialResizeDims.width / initialResizeDims.height`, recomputed from the live
overlay, not the SignatureAsset's ratio.  With the captured image 300×100
(asset ratio 3) but the overlay still at the component's initial
`sigDimensions = {width: 100, height: 50}` (the `img.onload` effect has not
run yet), a resize update (`deltaX = 0`, viewport 800×1000) keeps height
`50 = width / 2`, not `width / 3` as the asset ratio dictates. -/
theorem resize_ratio_not_from_asset :
    (resizeMove ⟨⟨0, 0⟩, ⟨100, 50⟩⟩ ⟨100, 50⟩ 0 800 1000).dims = ⟨100, 50⟩ ∧
    assetAspect ⟨300, 100⟩ = 3 ∧
    (resizeMove ⟨⟨0, 0⟩, ⟨100, 50⟩⟩ ⟨100, 50⟩ 0 800 1000).dims.width /
        (resizeMove ⟨⟨0, 0⟩, ⟨100, 50⟩⟩ ⟨100, 50⟩ 0 800 1000).dims.height ≠
      assetAspect ⟨300, 100⟩ := by
  norm_num [resizeMove, resizeNewWidth, resizeNewHeight, assetAspect]

/-- C4 (amended): each resize update's ratio comes from the overlay dimensions
captured at the start of the resize interaction, not from the SignatureAsset;
in exact arithmetic this recapture preserves the ratio, so whenever the
overlay's dimensions are the asset-derived ones, any sequence of resize
interactions leaves `width / height` equal to the asset's aspect ratio. -/
theorem resize_run_preserves_asset_ratio (a : SignatureAsset)
    (st : OverlayState) (sessions : List (List ℚ)) (vw vh : ℚ)
    (haw : 0 < a.width) (hah : 0 < a.height)
    (hd : st.dims = dimsFromAsset a) :
    (resizeRun st sessions vw vh).dims.width /
        (resizeRun st sessions vw vh).dims.height = assetAspect a := by
  have haspect : 0 < assetAspect a := div_pos haw hah
  have hst : RatioInv (assetAspect a) st := by
    rw [RatioInv, hd]
    refine ⟨by norm_num [dimsFromAsset], ?_, ?_⟩
    · show (0 : ℚ) < 100 / assetAspect a
      exact div_pos (by norm_num) haspect
    · show (100 : ℚ) / (100 / assetAspect a) = assetAspect a
      rw [div_div_eq_mul_div, mul_comm, mul_div_assoc, div_self (by norm_num : (100 : ℚ) ≠ 0), mul_one]
  exact (resizeRun_ratio vw vh sessions st hst).2.2

/-- C4 witness: a 300×100 asset, overlay at the asset-derived 100×(100/3),
three resize interactions (`+50`, then `-20` and `+10`, then `+500`) on an
800×1000 viewport end with ratio exactly 3. -/
theorem resize_run_preserves_asset_ratio_witness :
    (resizeRun ⟨⟨0, 0⟩, ⟨100, 100 / 3⟩⟩ [[50], [-20, 10], [500]] 800 1000).dims.width /
        (resizeRun ⟨⟨0, 0⟩, ⟨100, 100 / 3⟩⟩ [[50], [-20, 10], [500]] 800 1000).dims.height
      = assetAspect ⟨300, 100⟩ :=
  resize_run_preserves_asset_ratio ⟨300, 100⟩ ⟨⟨0, 0⟩, ⟨100, 100 / 3⟩⟩
    [[50], [-20, 10], [500]] 800 1000 (by norm_num) (by norm_num)
    (by norm_num [dimsFromAsset, assetAspect])

/-! ## Error behaviour of the mapping step

`embedSignature` performs no geometry validation: it divides by the rendered
page dimensions and proceeds unconditionally.  Its only failure on the
geometry path is indexing a missing page (`pages[pageIndex]`).  The error type
below includes the spec's `InvalidDimensions` constructor so the spec's claim
can be stated; the source never produces it. -/

inductive EmbedError where
  | invalidDimensions
  | pageOutOfRange
  deriving DecidableEq, Repr

/-- The fallible mapping step of `embedSignature`: looks up the target page
(fails only when `pageIndex` is out of range) and converts the overlay
rectangle with `toDocumentSpace`, with no check on any dimension. -/
def embedMapping (pageIndex pageCount : ℕ) (position : Position)
    (pdfPageDimensions signatureDimensions native : Dimensions) :
    Except EmbedError Rect :=
  if pageIndex < pageCount then
    Except.ok (toDocumentSpace position signatureDimensions pdfPageDimensions native)
  else
    Except.error EmbedError.pageOutOfRange

/-- C3 counterexample: feeding the mapper a rendered page width of −800 (≤ 0)
on a 5-page document does not fail with `InvalidDimensions`: it produces the
formula rectangle (with negative width). -/
theorem mapper_accepts_nonpositive_dimensions :
    embedMapping 0 5 ⟨350, 300⟩ ⟨-800, 1000⟩ ⟨100, 50⟩ ⟨612, 792⟩ =
      Except.ok ⟨-1071 / 4, 2574 / 5, -153 / 2, 198 / 5⟩ ∧
    embedMapping 0 5 ⟨350, 300⟩ ⟨-800, 1000⟩ ⟨100, 50⟩ ⟨612, 792⟩ ≠
      Except.error EmbedError.invalidDimensions ∧
    (-800 : ℚ) ≤ 0 := by
  have hok : embedMapping 0 5 ⟨350, 300⟩ ⟨-800, 1000⟩ ⟨100, 50⟩ ⟨612, 792⟩ =
      Except.ok ⟨-1071 / 4, 2574 / 5, -153 / 2, 198 / 5⟩ := by
    norm_num [embedMapping, toDocumentSpace]
  refine ⟨hok, ?_, by norm_num⟩
  rw [hok]
  exact fun h => Except.noConfusion h

/-- C3 (amended): the mapping step performs no dimension validation at all:
for any in-range page index, even when some overlay, rendered-page or native
dimension is ≤ 0, it succeeds with the formula rectangle instead of failing
with `InvalidDimensions`. -/
theorem mapper_no_dimension_validation (pageIndex pageCount : ℕ)
    (p : Position) (r sd n : Dimensions) (hpage : pageIndex < pageCount)
    (hdim : r.width ≤ 0 ∨ r.height ≤ 0 ∨ sd.width ≤ 0 ∨ sd.height ≤ 0 ∨
      n.width ≤ 0 ∨ n.height ≤ 0) :
    embedMapping pageIndex pageCount p r sd n =
      Except.ok (toDocumentSpace p sd r n) := by
  unfold embedMapping
  rw [if_pos hpage]

/-- C3 amended witness: a zero-height signature overlay on page 1 of a 5-page
document still maps successfully. -/
theorem mapper_no_dimension_validation_witness :
    embedMapping 0 5 ⟨350, 300⟩ ⟨800, 1000⟩ ⟨100, 0⟩ ⟨612, 792⟩ =
      Except.ok (toDocumentSpace ⟨350, 300⟩ ⟨100, 0⟩ ⟨800, 1000⟩ ⟨612, 792⟩) :=
  mapper_no_dimension_validation 0 5 ⟨350, 300⟩ ⟨800, 1000⟩ ⟨100, 0⟩ ⟨612, 792⟩
    (by norm_num) (by norm_num)

/-! ## Scale behaviour of the mapper -/

/-- C6 counterexample: on the spec's US-Letter scenario, doubling the rendered
page to 1600×2000 while halving the overlay to (175, 150) sized 50×25 does
not reproduce the original document-space rectangle (the width alone drops
from 76.5 to 19.125). -/
theorem toDocumentSpace_not_invariant_under_halving :
    (toDocumentSpace ⟨350, 300⟩ ⟨100, 50⟩ ⟨800, 1000⟩ ⟨612, 792⟩).width = 153 / 2 ∧
    (toDocumentSpace ⟨175, 150⟩ ⟨50, 25⟩ ⟨1600, 2000⟩ ⟨612, 792⟩).width = 153 / 8 ∧
    toDocumentSpace ⟨175, 150⟩ ⟨50, 25⟩ ⟨1600, 2000⟩ ⟨612, 792⟩ ≠
      toDocumentSpace ⟨350, 300⟩ ⟨100, 50⟩ ⟨800, 1000⟩ ⟨612, 792⟩ := by
  refine ⟨?_, ?_, ?_⟩ <;> norm_num [toDocumentSpace]

/-- C6 (amended): the conversion is scale-invariant in the covariant
direction: for positive dimensions, doubling both rendered page dimensions
together with doubling the overlay position and size yields the same
document-space rectangle. -/
theorem toDocumentSpace_scale_invariant (p : Position) (d r n : Dimensions)
    (hdw : 0 < d.width) (hdh : 0 < d.height)
    (hrw : 0 < r.width) (hrh : 0 < r.height)
    (hnw : 0 < n.width) (hnh : 0 < n.height) :
    toDocumentSpace ⟨2 * p.x, 2 * p.y⟩ ⟨2 * d.width, 2 * d.height⟩
        ⟨2 * r.width, 2 * r.height⟩ n =
      toDocumentSpace p d r n := by
  have hrw' := hrw.ne'
  have hrh' := hrh.ne'
  simp only [toDocumentSpace, Rect.mk.injEq]
  refine ⟨?_, ?_, ?_, ?_⟩ <;> field_simp <;> ring

/-- C6 amended witness: doubling the US-Letter scenario covariantly leaves the
rectangle unchanged. -/
theorem toDocumentSpace_scale_invariant_witness :
    toDocumentSpace ⟨2 * 350, 2 * 300⟩ ⟨2 * 100, 2 * 50⟩ ⟨2 * 800, 2 * 1000⟩ ⟨612, 792⟩ =
      toDocumentSpace ⟨350, 300⟩ ⟨100, 50⟩ ⟨800, 1000⟩ ⟨612, 792⟩ :=
  toDocumentSpace_scale_invariant ⟨350, 300⟩ ⟨100, 50⟩ ⟨800, 1000⟩ ⟨612, 792⟩
    (by norm_num) (by norm_num) (by norm_num) (by norm_num) (by norm_num) (by norm_num)

/-! ## Page navigation

The toolbar of `SigningWorkspace`: the previous button is
`disabled={currentPage <= 1}` with `onClick={() => setCurrentPage(p => p - 1)}`,
the next button is `disabled={currentPage >= numPages}` with
`onClick={() => setCurrentPage(p => p + 1)}`.  The click handlers themselves
contain no range check. -/

/-- The previous-page click handler: `setCurrentPage(p => p - 1)`. -/
def prevPageClick (currentPage : ℤ) : ℤ := currentPage - 1

/-- The next-page click handler: `setCurrentPage(p => p + 1)`. -/
def nextPageClick (currentPage : ℤ) : ℤ := currentPage + 1

/-- `disabled={currentPage <= 1}` on the previous button. -/
def prevDisabled (currentPage : ℤ) : Bool := currentPage ≤ 1

/-- `disabled={currentPage >= numPages}` on the next button. -/
def nextDisabled (currentPage numPages : ℤ) : Bool := numPages ≤ currentPage

inductive NavEvent where
  | prev
  | next
  deriving DecidableEq, Repr

/-- A navigation click as the browser delivers it: a disabled button fires no
`onClick`, so the handler runs only when the button is enabled. -/
def navStep (numPages currentPage : ℤ) (e : NavEvent) : ℤ :=
  match e with
  | NavEvent.prev =>
      if prevDisabled currentPage then currentPage else prevPageClick currentPage
  | NavEvent.next =>
      if nextDisabled currentPage numPages then currentPage
      else nextPageClick currentPage

/-- C7 counterexample: the navigator has no defensive guard of its own.  On a
5-page document, invoking the previous-page handler at page 1 (the
`goToPage(0)` request) yields page 0 — the current page is changed, not left
unchanged — and the next-page handler at page 5 yields page 6. -/
theorem nav_handlers_unguarded :
    prevPageClick 1 = 0 ∧ prevPageClick 1 ≠ 1 ∧
    nextPageClick 5 = 6 ∧ nextPageClick 5 ≠ 5 := by
  refine ⟨rfl, ?_, rfl, ?_⟩ <;> decide

/-- C7 (amended): out-of-range navigation is prevented only by the buttons
being disabled at the bounds.  Under the browser rule that a disabled button
fires no click handler, any navigation click keeps
`1 ≤ currentPage ≤ numPages`; the raw handlers themselves perform no
clamping. -/
theorem nav_click_preserves_range (numPages currentPage : ℤ) (e : NavEvent)
    (h1 : 1 ≤ currentPage) (h2 : currentPage ≤ numPages) :
    1 ≤ navStep numPages currentPage e ∧
      navStep numPages currentPage e ≤ numPages := by
  cases e <;>
    simp only [navStep, prevPageClick, nextPageClick, prevDisabled,
      nextDisabled, decide_eq_true_eq] <;>
    split <;> omega

/-- C7 amended witness: clicking previous at page 1 of a 5-page document
leaves the page inside `[1, 5]`. -/
theorem nav_click_preserves_range_witness :
    1 ≤ navStep 5 1 NavEvent.prev ∧ navStep 5 1 NavEvent.prev ≤ 5 :=
  nav_click_preserves_range 5 1 NavEvent.prev (by decide) (by decide)

/-! ## Overlay initialization

The render effect of `SigningWorkspace` centers the signature on the first
successful page render only:

    if (!initialized && canvasRef.current) {
        setSigPosition({
            x: (canvasRef.current.width / 2) - (sigDimensions.width / 2),
            y: (canvasRef.current.height / 3) - (sigDimensions.height / 2)
        });
        setInitialized(true);
    }
-/

/-- The `initialized` flag and overlay position of `SigningWorkspace`. -/
structure WorkspaceInit where
  initialized : Bool
  pos : Position
  deriving DecidableEq, Repr

/-- One successful page render: the canvas size produced for the rendered
page and the `sigDimensions` current at that moment. -/
structure RenderEvent where
  canvasWidth : ℚ
  canvasHeight : ℚ
  sigDims : Dimensions
  deriving DecidableEq, Repr

/-- The initial position installed on first render: centered horizontally,
centered on the one-third line vertically. -/
def initialPosition (canvasWidth canvasHeight : ℚ) (sigDims : Dimensions) :
    Position :=
  ⟨canvasWidth / 2 - sigDims.width / 2, canvasHeight / 3 - sigDims.height / 2⟩

/-- The centering guard of the render effect: re-center only while
`initialized` is false, then set the flag. -/
def renderStep (st : WorkspaceInit) (ev : RenderEvent) : WorkspaceInit :=
  if st.initialized then st
  else ⟨true, initialPosition ev.canvasWidth ev.canvasHeight ev.sigDims⟩

theorem renderStep_initialized (st : WorkspaceInit) (ev : RenderEvent)
    (h : st.initialized = true) : renderStep st ev = st := by
  unfold renderStep
  rw [if_pos h]

theorem foldl_renderStep_initialized (st : WorkspaceInit)
    (h : st.initialized = true) :
    ∀ evs : List RenderEvent, List.foldl renderStep st evs = st
  | [] => rfl
  | ev :: evs => by
      rw [List.foldl_cons, renderStep_initialized st ev h,
        foldl_renderStep_initialized st h evs]

/-- C8: across any session starting uninitialized, the first successful page
render sets the overlay position to `(canvasWidth / 2 - width / 2,
canvasHeight / 3 - height / 2)` — centered horizontally, at one third of the
page height vertically — and sets `initialized`, after which no later render
(page change or viewport change) moves the overlay: the final position is
exactly the first render's centered position, whatever the later events. -/
theorem overlay_initialized_once (p0 : Position) (ev : RenderEvent)
    (rest : List RenderEvent) :
    (List.foldl renderStep ⟨false, p0⟩ (ev :: rest)).initialized = true ∧
    (List.foldl renderStep ⟨false, p0⟩ (ev :: rest)).pos =
      ⟨ev.canvasWidth / 2 - ev.sigDims.width / 2,
       ev.canvasHeight / 3 - ev.sigDims.height / 2⟩ := by
  have hfirst : renderStep ⟨false, p0⟩ ev =
      ⟨true, initialPosition ev.canvasWidth ev.canvasHeight ev.sigDims⟩ := rfl
  rw [List.foldl_cons, hfirst,
    foldl_renderStep_initialized _ rfl rest]
  exact ⟨rfl, rfl⟩

/-! ## Commit pipeline

`handleFinish` calls `embedSignature(file, signatureData.dataUrl,
currentPage - 1, sigPosition, {canvas width/height}, sigDimensions)` once;
`embedSignature` is straight-line code issuing one `PDFDocument.load`, one
`embedPng`, one `page.drawImage` (the document mutation) and one `save`.
The external calls are modelled as a trace. -/

inductive PdfCall where
  | loadDoc
  | embedPng
  | drawImage (pageIndex : ℕ) (rect : Rect)
  | save
  deriving DecidableEq, Repr

/-- The sequence of pdf-lib calls `embedSignature` issues, in source order;
the rectangle handed to `page.drawImage` is the `toDocumentSpace`
conversion. -/
def embedSignatureTrace (pageIndex : ℕ) (position : Position)
    (pdfPageDimensions signatureDimensions native : Dimensions) :
    List PdfCall :=
  [PdfCall.loadDoc, PdfCall.embedPng,
   PdfCall.drawImage pageIndex
     (toDocumentSpace position signatureDimensions pdfPageDimensions native),
   PdfCall.save]

/-- The `SigningWorkspace` state `handleFinish` reads (plus interaction fields
it does not read). -/
structure FinishState where
  currentPage : ℕ
  sigPosition : Position
  canvasDims : Dimensions
  sigDimensions : Dimensions
  dragOffset : Position
  isProcessing : Bool
  deriving DecidableEq, Repr

/-- `handleFinish`: one `embedSignature` call with the 0-based page index, the
overlay position/size and the rendered canvas dimensions. -/
def handleFinishTrace (st : FinishState) (native : Dimensions) : List PdfCall :=
  embedSignatureTrace (st.currentPage - 1) st.sigPosition st.canvasDims
    st.sigDimensions native

/-- Whether a pdf-lib call mutates the document content (`page.drawImage`). -/
def isMutation : PdfCall → Bool
  | PdfCall.drawImage _ _ => true
  | _ => false

/-- The document-mutation calls of a trace. -/
def mutationCalls (t : List PdfCall) : List PdfCall := t.filter isMutation

/-- C9: each `finish()` issues exactly one document-mutation call, and the
mapping step is deterministic: two finishes whose overlay position, overlay
size, page index and rendered canvas dimensions agree (whatever their other
interaction state) hand the mutator identical mutation calls, i.e. identical
document-space rectangles. -/
theorem finish_single_deterministic_mutation (s₁ s₂ : FinishState)
    (native : Dimensions)
    (hp : s₁.currentPage = s₂.currentPage)
    (hpos : s₁.sigPosition = s₂.sigPosition)
    (hc : s₁.canvasDims = s₂.canvasDims)
    (hd : s₁.sigDimensions = s₂.sigDimensions) :
    (mutationCalls (handleFinishTrace s₁ native)).length = 1 ∧
    mutationCalls (handleFinishTrace s₁ native) =
      [PdfCall.drawImage (s₁.currentPage - 1)
        (toDocumentSpace s₁.sigPosition s₁.sigDimensions s₁.canvasDims native)] ∧
    mutationCalls (handleFinishTrace s₁ native) =
      mutationCalls (handleFinishTrace s₂ native) := by
  refine ⟨rfl, rfl, ?_⟩
  rw [handleFinishTrace, handleFinishTrace, hp, hpos, hc, hd]

/-- C9 witness: two finishes on page 3 of the US-Letter scenario that differ
only in `dragOffset` and `isProcessing` produce the same single mutation
call. -/
theorem finish_single_deterministic_mutation_witness :
    (mutationCalls (handleFinishTrace
        ⟨3, ⟨350, 300⟩, ⟨800, 1000⟩, ⟨100, 50⟩, ⟨10, 20⟩, false⟩ ⟨612, 792⟩)).length = 1 ∧
    mutationCalls (handleFinishTrace
        ⟨3, ⟨350, 300⟩, ⟨800, 1000⟩, ⟨100, 50⟩, ⟨10, 20⟩, false⟩ ⟨612, 792⟩) =
      [PdfCall.drawImage 2
        (toDocumentSpace ⟨350, 300⟩ ⟨100, 50⟩ ⟨800, 1000⟩ ⟨612, 792⟩)] ∧
    mutationCalls (handleFinishTrace
        ⟨3, ⟨350, 300⟩, ⟨800, 1000⟩, ⟨100, 50⟩, ⟨10, 20⟩, false⟩ ⟨612, 792⟩) =
      mutationCalls (handleFinishTrace
        ⟨3, ⟨350, 300⟩, ⟨800, 1000⟩, ⟨100, 50⟩, ⟨0, 0⟩, true⟩ ⟨612, 792⟩) :=
  finish_single_deterministic_mutation
    ⟨3, ⟨350, 300⟩, ⟨800, 1000⟩, ⟨100, 50⟩, ⟨10, 20⟩, false⟩
    ⟨3, ⟨350, 300⟩, ⟨800, 1000⟩, ⟨100, 50⟩, ⟨0, 0⟩, true⟩
    ⟨612, 792⟩ rfl rfl rfl rfl

/-! ## Capture surface

`SignaturePad`: `startDrawing` sets `isDrawing`; `draw` returns early unless
`isDrawing` and otherwise strokes and sets `hasSignature`; `stopDrawing`
(mouse-up, mouse-leave, touch-end) clears `isDrawing`; `clearSignature`
clears `hasSignature`.  The export button is `disabled={!hasSignature}`. -/

/-- The `SignaturePad` component state: `isDrawing` and `hasSignature`. -/
structure PadState where
  isDrawing : Bool
  hasSignature : Bool
  deriving DecidableEq, Repr

inductive PadEvent where
  | down
  | move
  | up
  | clear
  deriving DecidableEq, Repr

/-- Whether the event is a stroke-extension (pointer-move). -/
def PadEvent.isMove : PadEvent → Bool
  | PadEvent.move => true
  | _ => false

/-- Whether the event is `clearSignature`. -/
def PadEvent.isClear : PadEvent → Bool
  | PadEvent.clear => true
  | _ => false

/-- The `SignaturePad` event handlers as a step function: `startDrawing`,
`draw` (guarded by `isDrawing`), `stopDrawing`, `clearSignature`. -/
def padStep (s : PadState) (e : PadEvent) : PadState :=
  match e with
  | PadEvent.down => { s with isDrawing := true }
  | PadEvent.move => if s.isDrawing then { s with hasSignature := true } else s
  | PadEvent.up => { s with isDrawing := false }
  | PadEvent.clear => { s with hasSignature := false }

/-- `disabled={!hasSignature}` on the export ("Use Signature") button. -/
def exportDisabled (s : PadState) : Bool := !s.hasSignature

/-- C10: `hasSignature` after a step is true exactly when the step was a
stroke-extension while drawing was active, or it was already true and the
step was not `clear` (so only `clear` resets it); in particular a
pointer-down followed immediately by pointer-up leaves `hasSignature` false
and the export button disabled. -/
theorem pad_ink_characterization :
    (∀ (s : PadState) (e : PadEvent),
      (padStep s e).hasSignature =
        ((s.hasSignature && ! e.isClear) || (e.isMove && s.isDrawing))) ∧
    (List.foldl padStep ⟨false, false⟩ [PadEvent.down, PadEvent.up]).hasSignature
        = false ∧
    exportDisabled (List.foldl padStep ⟨false, false⟩ [PadEvent.down, PadEvent.up])
        = true := by
  refine ⟨?_, rfl, rfl⟩
  intro s e
  cases e <;> cases h : s.isDrawing <;>
    simp [padStep, PadEvent.isMove, PadEvent.isClear, h]

end AutoSign
